import Mathlib

/-
Verification of the FEX thunk-library runtime headers
(`src/ThunkLibs/include/common/Host.h`) and the generator behavior pinned
by the unit tests (`src/unittests/ThunkLibs/generator.cpp`).

The definitions below are shallow embeddings of the C++ source: machine
integers are `Nat` with explicit reduction modulo `2 ^ width` where the C++
performs an implicit narrowing conversion, template well-formedness
(static_assert conditions) becomes a decidable predicate over the kind of
the instantiating type, and straight-line runtime code becomes a pure
function returning an event trace. Code of the repository that exists only
outside the provided sources (the generator proper) is modelled from the
specification text; each such definition carries a doc comment starting
with "Modelled from the spec".
-/

namespace FexThunks

/- ### Guest pointer layout (`guest_layout<T*>`, Host.h lines 109-157)

The wrapper holds a single unsigned field `data` whose type is `uint32_t`
under `IS_32BIT_THUNK` and `uint64_t` otherwise. We model the field as a
`Nat` together with the width selected by the `is32` flag; the implicit
C++ integer conversion on assignment reduces the stored address modulo
`2 ^ width`. -/

/-- Width in bits of the `data` field of `guest_layout<T*>`: 32 when
IS_32BIT_THUNK is defined, 64 otherwise (Host.h lines 111-115). -/
def guestPtrWidth (is32 : Bool) : Nat := if is32 then 32 else 64

/-- The single-field record `guest_layout<T*>` (Host.h line 116). -/
structure GuestLayoutPtr where
  data : Nat
deriving DecidableEq

/-- The single-field record `host_layout<T*>` (Host.h line 192); host
pointers are 64-bit but we model the field as an unconstrained `Nat`
holding the address bit pattern. -/
structure HostLayoutPtr where
  data : Nat
deriving DecidableEq

/-- Assignment `guest_layout<T*>::operator=(const T*)` (Host.h lines
119-123): `data = reinterpret_cast<uintptr_t>(from);` — the implicit
conversion from `uintptr_t` to the guest-width field truncates modulo the
field width (the source notes `TODO: Assert upper 32 bits are zero`). -/
def guestPtrAssign (is32 : Bool) (addr : Nat) : GuestLayoutPtr :=
  ⟨addr % 2 ^ guestPtrWidth is32⟩

/-- Constructor `host_layout<T*>(const guest_layout<T*>&)` (Host.h line
197): `data { (T*)(uintptr_t)from.data }` — the guest-width value is
zero-extended to the 64-bit host pointer, i.e. kept as-is. -/
def host_layout_ptr_from_guest (g : GuestLayoutPtr) : HostLayoutPtr :=
  ⟨g.data⟩

/-- The pointer overload `to_guest(const host_layout<T*>&)` (Host.h lines
226-232): `ret.data = reinterpret_cast<uintptr_t>(from.data);` with the
implicit narrowing to the guest-width field, and no range check (the source
notes `TODO: Assert upper 32 bits are zero`). -/
def to_guest_ptr (is32 : Bool) (h : HostLayoutPtr) : GuestLayoutPtr :=
  ⟨h.data % 2 ^ guestPtrWidth is32⟩

/-- The invariant of `guest_layout<T*>`: the stored bit pattern fits the
guest pointer width. -/
def ptrInvariant (is32 : Bool) (g : GuestLayoutPtr) : Prop :=
  g.data < 2 ^ guestPtrWidth is32

/- ### Callback-wrapper arity gate
(`GuestWrapperForHostFunction<Result(Args...)>::Call`, Host.h lines 265-328)

`Call` reinterprets its argument as
`PackedArguments<Result, guest_layout<Args>..., uintptr_t>*`: the record
carries the `n = sizeof...(Args)` argument slots followed by one hidden
`uintptr_t` callback-target slot. A `static_assert(CBIndex <= 18 || CBIndex
== 23)` gates compilation, and an `if constexpr` chain reads `args->a0`
through `args->a18` or `args->a23`. -/

/-- Condition of the `static_assert` on Host.h line 275, with
`CBIndex = sizeof...(Args) = n`. -/
def callArityAllowed (n : Nat) : Prop := n ≤ 18 ∨ n = 23

instance (n : Nat) : Decidable (callArityAllowed n) := by
  unfold callArityAllowed
  infer_instance

/-- The `if constexpr` chain of `Call` (Host.h lines 276-316): for argument
count `n` it reads packed-record field `a_n`; outside the chain no branch
assigns the callback slot. -/
def cbSlotIndex (n : Nat) : Option Nat :=
  if n = 0 then some 0
  else if n = 1 then some 1
  else if n = 2 then some 2
  else if n = 3 then some 3
  else if n = 4 then some 4
  else if n = 5 then some 5
  else if n = 6 then some 6
  else if n = 7 then some 7
  else if n = 8 then some 8
  else if n = 9 then some 9
  else if n = 10 then some 10
  else if n = 11 then some 11
  else if n = 12 then some 12
  else if n = 13 then some 13
  else if n = 14 then some 14
  else if n = 15 then some 15
  else if n = 16 then some 16
  else if n = 17 then some 17
  else if n = 18 then some 18
  else if n = 23 then some 23
  else none

/-- One slot of the packed record viewed by `Call`. -/
inductive Slot where
  | arg (i : Nat)
  | cbTarget
deriving DecidableEq

/-- Slot sequence of `PackedArguments<Result, guest_layout<Args>...,
uintptr_t>` as addressed by `Call` (Host.h line 272): the `n` argument
slots `a0 … a(n-1)` followed by the hidden callback-target slot. -/
def callRecordSlots (n : Nat) : List Slot :=
  (List.range n).map Slot.arg ++ [Slot.cbTarget]

/- ### Host-to-guest trampoline body
(`CallbackUnpack<Result(Args...)>::CallGuestPtr`, Host.h lines 237-251, and
the hidden-register macro LOAD_INTERNAL_GUESTPTR_VIA_CUSTOM_ABI, lines
79-85) -/

/-- The runtime descriptor read from the hidden register (Host.h lines
69-74); `CallCallback` is modelled as a pure function from
`(GuestUnpacker, GuestTarget, packed argument slots)` to the return value
it writes into the packed record. -/
structure GuestcallInfo where
  HostPacker : Nat
  CallCallback : Nat → Nat → List Nat → Nat
  GuestUnpacker : Nat
  GuestTarget : Nat

/-- Host architectures for which the hidden-register macro is defined
(Host.h lines 79-85). -/
inductive HostArch where
  | x86_64
  | aarch64
deriving DecidableEq

/-- Register used by LOAD_INTERNAL_GUESTPTR_VIA_CUSTOM_ABI to carry the
`GuestcallInfo` pointer: `r11` on x86-64, `x11` on AArch64. -/
def hiddenContextRegister : HostArch → String
  | .x86_64 => "r11"
  | .aarch64 => "x11"

/-- Observable side effect of the trampoline body: one invocation of
`guestcall->CallCallback(GuestUnpacker, GuestTarget, &packed_args)`. -/
inductive TrampolineEvent where
  | callCallbackInvoked (guestUnpacker guestTarget : Nat) (packedArgs : List Nat)
deriving DecidableEq

/-- `CallbackUnpack<Result(Args...)>::CallGuestPtr` (Host.h lines 239-250):
loads the `GuestcallInfo` from the hidden register, packs the native
arguments into a stack `PackedArguments<Result, Args...>`, invokes the
callback once, and returns `packed_args.rv` exactly when `Result` is
non-void. The first component is the trace of callback invocations, the
second the returned value (`none` models a void result). -/
def CallGuestPtr (guestcall : GuestcallInfo) (args : List Nat)
    (resultIsVoid : Bool) : List TrampolineEvent × Option Nat :=
  let packed_args := args
  let rv := guestcall.CallCallback guestcall.GuestUnpacker
    guestcall.GuestTarget packed_args
  ([TrampolineEvent.callCallbackInvoked guestcall.GuestUnpacker
      guestcall.GuestTarget packed_args],
   if resultIsVoid then none else some rv)

/- ### Generic layout wrappers for scalar types
(`guest_layout<T>` Host.h lines 93-107, `host_layout<T>` lines 162-181) -/

/-- Kind of the type a generic layout template is instantiated with. -/
inductive TypeKind where
  | scalarK
  | enumK
  | classK
  | unionK
  | voidK
deriving DecidableEq

/-- Conjunction of the `static_assert` conditions at the top of the generic
`guest_layout<T>` template (Host.h lines 95-98): the instantiation is
rejected for class, union, enum and void types. -/
def guest_layout_generic_admissible : TypeKind → Bool
  | .classK => false
  | .unionK => false
  | .enumK => false
  | .voidK => false
  | .scalarK => true

/-- Conjunction of the `static_assert` conditions of the generic
`host_layout<T>` template (Host.h lines 164-166): class, union and void
are rejected; there is no assertion against enum types (they are handled
by the dedicated constructor on line 179). -/
def host_layout_generic_admissible : TypeKind → Bool
  | .classK => false
  | .unionK => false
  | .voidK => false
  | .enumK => true
  | .scalarK => true

/-- Data-layout classification of an aggregate type (spec section 4.2;
the Opaque case is only reachable behind annotated pointers and is not
needed here). -/
inductive LayoutClass where
  | identical
  | repackable
  | incompatible
deriving DecidableEq

/-- Modelled from the spec: whether the generator emits complete
`guest_layout`/`host_layout` wrapper definitions for an aggregate of the
given classification — for Incompatible this happens exactly under the
`emit_layout_wrappers` override (spec sections 3, 4.2; pinned by the
LayoutWrappers unit test, generator.cpp lines 553-674). The generator
source itself is not part of the provided sources. -/
def wrappersEmitted : LayoutClass → Bool → Bool
  | .incompatible, emitOverride => emitOverride
  | _, _ => true

/-- Modelled from the spec: the `to_guest` overload taking `host_layout<A>`
is deleted exactly when no wrappers are emitted (spec section 3:
"the reverse (`to_guest`) ... is explicitly *deleted* when no conversion
is possible"; pinned by the LayoutWrappers unit test). -/
def to_guest_deleted (c : LayoutClass) (emitOverride : Bool) : Bool :=
  !(wrappersEmitted c emitOverride)

/-- Descriptor of a non-class, non-union, non-pointer scalar type as the
generic `host_layout<T>` constructors see it: its host size, the size of
its guest representation, and whether it is an enum. -/
structure ScalarTy where
  hostSize : Nat
  guestSize : Nat
  isEnum : Bool
deriving DecidableEq

/-- The generic `host_layout<T>` constructors (Host.h lines 172-180): the
non-enum constructor carries `static_assert(sizeof(data) == sizeof(from))`
and initializes `data { from.data }`; the enum constructor initializes
`data { static_cast<T>(from.data) }` with no size assertion. `none` models
the failing static_assert; otherwise the stored value is returned. -/
def host_layout_scalar (t : ScalarTy) (fromData : Nat) : Option Nat :=
  if t.isEnum then some fromData
  else if t.hostSize = t.guestSize then some fromData
  else none

/- ### Weakly-linked trampoline primitives and their helpers
(Host.h lines 22-32 and 330-350) -/

/-- Result of calling through a weak symbol: either the primitive was
resolved and returned a value, or the symbol was null at load time and the
call dereferences null. -/
inductive WeakCallResult (α : Type) where
  | ok (result : α)
  | nullDeref
deriving DecidableEq

/-- `MakeHostTrampolineForGuestFunctionAt` (Host.h lines 331-336): its body
is a single unconditional call to the weak
`FEXCore::MakeHostTrampolineForGuestFunction`; `prim = none` models the
symbol being unresolved (library loaded without the emulator runtime). -/
def MakeHostTrampolineForGuestFunctionAt
    (prim : Option (Nat → Nat → Nat → Nat))
    (hostPacker guestTarget guestUnpacker : Nat) : WeakCallResult Nat :=
  match prim with
  | some makeHostTrampoline =>
      .ok (makeHostTrampoline hostPacker guestTarget guestUnpacker)
  | none => .nullDeref

/-- `FinalizeHostTrampolineForGuestFunction` (both overloads, Host.h lines
338-350): each body is a single unconditional call to the weak
`FEXCore::FinalizeHostTrampolineForGuestFunction`. -/
def FinalizeHostTrampolineForGuestFunction
    (prim : Option (Nat → Nat → Nat))
    (trampoline hostPacker : Nat) : WeakCallResult Nat :=
  match prim with
  | some finalize => .ok (finalize trampoline hostPacker)
  | none => .nullDeref

/- ### Generator behavior pinned by the unit tests -/

/-- The guest ABI selector of the generator (generator.cpp, GuestABI). -/
inductive GuestABI where
  | X86_32
  | X86_64
deriving DecidableEq

/-- Parameter annotations relevant to the void-pointer policy. -/
inductive PtrAnnot where
  | unannotated
  | ptrPassthrough
  | assumeCompatibleDataLayout
deriving DecidableEq

/-- Where the `void*` occurs: directly as a function parameter, or as a
member of a struct passed by pointer. -/
inductive VoidPtrPosition where
  | bareParameter
  | structMember
deriving DecidableEq

/-- Outcome of generation for a `void*` in the given position, as pinned by
the VoidPointerParameter unit test (generator.cpp lines 719-767): `some d`
is a generation failure whose diagnostic contains `d`, `none` is success.
The bare unannotated parameter on X86_32 succeeds — the test's failure
check is commented out with "TODO: Currently not considered an error"
(lines 728-731); the unannotated struct member on X86_32 fails with
"unsupported parameter type" (line 763); X86_64 and all annotated cases
succeed (lines 733, 743, 752, 765). -/
def voidPointerOutcome : GuestABI → PtrAnnot → VoidPtrPosition → Option String
  | .X86_32, .unannotated, .structMember => some "unsupported parameter type"
  | _, _, _ => none

/-- One entry of the host module's `exports` array: `ExportEntry` holds a
SHA-256 pointer and an unpacker function pointer (Host.h line 49); an
entry is generated per declared function, one per distinct callback
signature (its unpacker being the corresponding
`GuestWrapperForHostFunction<sig>::Call` specialization), and the
all-zero sentinel terminates the array. -/
inductive HostExport where
  | funcEntry (idx : Nat)
  | callbackEntry (sig : Nat)
  | sentinel
deriving DecidableEq

/-- Modelled from the spec: the exports array of a generated host module —
"one entry per function plus one per distinct callback signature ...
terminated by a zero entry" (spec section 4.5; instances pinned by the
Trivial and FunctionPointerParameter unit tests, generator.cpp lines
364-373 and 452-458). The generator source itself is not part of the
provided sources. -/
def exportsArray (funcs : List Nat) (cbSigs : List Nat) : List HostExport :=
  funcs.map HostExport.funcEntry ++ cbSigs.map HostExport.callbackEntry
    ++ [HostExport.sentinel]

/-- C-like parameter types occurring in the variadic-packer test. -/
inductive CType where
  | intT
  | charT
  | ulongT
  | voidT
  | ptrT (pointee : CType)
deriving DecidableEq

/-- Modelled from the spec: parameter list of the internal guest packer
`fexfn_pack_<name>_internal` for a variadic function — the fixed
parameters, then an `unsigned long` slot holding the variadic argument
count, then the pointer to the materialized array of `uniform_va_type`
(spec sections 4.4 and 8, scenario 4; pinned by the VariadicFunction unit
test, generator.cpp lines 525-543). The generator source itself is not
part of the provided sources. -/
def variadicPackerParams (fixedParams : List CType)
    (uniformVaType : CType) : List CType :=
  fixedParams ++ [CType.ulongT, CType.ptrT uniformVaType]

/-- Modelled from the spec: the internal packer's return type is the
original function's return type. -/
def variadicPackerReturn (ret : CType) : CType := ret

/-- Closed form of the `if constexpr` chain: it produces `some n` exactly
for the arities admitted by the `static_assert`, and `none` otherwise. -/
lemma cbSlotIndex_spec (n : Nat) :
    cbSlotIndex n = if n ≤ 18 ∨ n = 23 then some n else none := by
  rcases Nat.lt_or_ge n 24 with h | h
  · interval_cases n <;> decide
  · unfold cbSlotIndex
    rw [if_neg (by omega : ¬n = 0), if_neg (by omega : ¬n = 1),
      if_neg (by omega : ¬n = 2), if_neg (by omega : ¬n = 3),
      if_neg (by omega : ¬n = 4), if_neg (by omega : ¬n = 5),
      if_neg (by omega : ¬n = 6), if_neg (by omega : ¬n = 7),
      if_neg (by omega : ¬n = 8), if_neg (by omega : ¬n = 9),
      if_neg (by omega : ¬n = 10), if_neg (by omega : ¬n = 11),
      if_neg (by omega : ¬n = 12), if_neg (by omega : ¬n = 13),
      if_neg (by omega : ¬n = 14), if_neg (by omega : ¬n = 15),
      if_neg (by omega : ¬n = 16), if_neg (by omega : ¬n = 17),
      if_neg (by omega : ¬n = 18), if_neg (by omega : ¬n = 23),
      if_neg (by omega : ¬(n ≤ 18 ∨ n = 23))]

end FexThunks

namespace FexThunks

/-- Claim C1 (code at the failing input): the void-pointer policy as pinned
by the VoidPointerParameter unit test. Contrary to the claim, a bare
unannotated `void*` parameter on an X86_32 guest does NOT fail generation
(first conjunct; the test marks the intended failure check as "TODO:
Currently not considered an error"). The remaining conjuncts record the
parts of the claim the code does satisfy: acceptance on X86_64 and under
either annotation on both guests, and the diagnostic "unsupported
parameter type" does occur for an unannotated `void*` struct member on
X86_32. -/
theorem void_pointer_policy_eval :
    voidPointerOutcome GuestABI.X86_32 PtrAnnot.unannotated
      VoidPtrPosition.bareParameter = none ∧
    voidPointerOutcome GuestABI.X86_64 PtrAnnot.unannotated
      VoidPtrPosition.bareParameter = none ∧
    voidPointerOutcome GuestABI.X86_32 PtrAnnot.ptrPassthrough
      VoidPtrPosition.bareParameter = none ∧
    voidPointerOutcome GuestABI.X86_64 PtrAnnot.ptrPassthrough
      VoidPtrPosition.bareParameter = none ∧
    voidPointerOutcome GuestABI.X86_32 PtrAnnot.assumeCompatibleDataLayout
      VoidPtrPosition.bareParameter = none ∧
    voidPointerOutcome GuestABI.X86_64 PtrAnnot.assumeCompatibleDataLayout
      VoidPtrPosition.bareParameter = none ∧
    voidPointerOutcome GuestABI.X86_32 PtrAnnot.unannotated
      VoidPtrPosition.structMember = some "unsupported parameter type" :=
  ⟨rfl, rfl, rfl, rfl, rfl, rfl, rfl⟩

/-- Claim C2: `GuestWrapperForHostFunction<Result(Args...)>::Call` is
well-formed exactly when the argument count `n` satisfies `n ≤ 18 ∨ n =
23` (the set `{0,…,18,23}`); whenever the chain assigns the callback slot
it reads index `n`, and index `n` of the packed record is the hidden
callback-target slot immediately after the last argument. -/
theorem guest_wrapper_call_arity (n : Nat) :
    (callArityAllowed n ↔ (cbSlotIndex n).isSome) ∧
    (∀ k, cbSlotIndex n = some k → k = n) ∧
    (callRecordSlots n)[n]? = some Slot.cbTarget := by
  refine ⟨?_, ?_, ?_⟩
  · rw [cbSlotIndex_spec]
    unfold callArityAllowed
    by_cases h : n ≤ 18 ∨ n = 23 <;> simp [h]
  · intro k hk
    rw [cbSlotIndex_spec] at hk
    by_cases h : n ≤ 18 ∨ n = 23
    · rw [if_pos h] at hk
      exact (Option.some_inj.mp hk).symm
    · rw [if_neg h] at hk
      exact absurd hk (by simp)
  · unfold callRecordSlots
    rw [List.getElem?_append_right (by simp)]
    simp

/-- Witness for C2 at the concrete arity 2: the arity is allowed, the
chain reads slot index 2, and slot 2 of the packed record is the hidden
callback-target slot. -/
theorem guest_wrapper_call_arity_witness :
    (callArityAllowed 2 ↔ (cbSlotIndex 2).isSome) ∧
    (∀ k, cbSlotIndex 2 = some k → k = 2) ∧
    (callRecordSlots 2)[2]? = some Slot.cbTarget :=
  guest_wrapper_call_arity 2

/-- Claim C3 counterexample: the generic `host_layout` template admits enum
types — its static_assert list (Host.h lines 164-166) has no `is_enum`
assertion, and line 179 provides a dedicated constructor for enums — so
instantiating the generic `host_layout` with an enum type is NOT a hard
error, contradicting the claim. -/
theorem host_layout_generic_enum_counterexample :
    host_layout_generic_admissible TypeKind.enumK = true := rfl

/-- Claim C3 (amended): for an Incompatible aggregate without override no
complete `guest_layout`/`host_layout` wrappers are emitted and the
`to_guest` overload is deleted; instantiating the generic `guest_layout`
template with a class, union, or enum type is a hard error, and the
generic `host_layout` template rejects class and union types but admits
enum types. -/
theorem incompatible_layout_gating :
    wrappersEmitted LayoutClass.incompatible false = false ∧
    to_guest_deleted LayoutClass.incompatible false = true ∧
    guest_layout_generic_admissible TypeKind.classK = false ∧
    guest_layout_generic_admissible TypeKind.unionK = false ∧
    guest_layout_generic_admissible TypeKind.enumK = false ∧
    host_layout_generic_admissible TypeKind.classK = false ∧
    host_layout_generic_admissible TypeKind.unionK = false ∧
    host_layout_generic_admissible TypeKind.enumK = true := by
  decide

/-- Claim C4 counterexample: the claimed length formula
`1 + 1 + (number of distinct callback signatures)` fails for a module
declaring two functions and no callbacks — the exports array then has
three entries (two function entries plus the sentinel), not two. -/
theorem exports_length_formula_counterexample :
    (exportsArray [0, 1] []).length ≠ 1 + 1 + ([] : List Nat).length := by
  decide

/-- Claim C4 (amended): the exports array has one entry per declared
function, one per distinct callback signature, and a trailing zero
sentinel, so its length is `(number of declared functions) + (number of
distinct callback signatures) + 1`; each callback signature contributes
its `GuestWrapperForHostFunction<sig>::Call` entry. For a module with a
single declared function this gives length 2 with no callbacks and length
3 with one callback signature, as in the claim's examples. -/
theorem exports_array_shape (funcs cbSigs : List Nat) :
    (exportsArray funcs cbSigs).length = funcs.length + cbSigs.length + 1 ∧
    (exportsArray funcs cbSigs).getLast? = some HostExport.sentinel ∧
    (∀ s, s ∈ cbSigs →
      HostExport.callbackEntry s ∈ exportsArray funcs cbSigs) ∧
    (exportsArray [0] []).length = 1 + 1 ∧
    (exportsArray [0] [7]).length = 1 + 1 + 1 := by
  refine ⟨?_, ?_, ?_, rfl, rfl⟩
  · unfold exportsArray
    simp
    omega
  · unfold exportsArray
    exact List.getLast?_concat _
  · intro s hs
    unfold exportsArray
    exact List.mem_append_left _
      (List.mem_append_right _ (List.mem_map_of_mem _ hs))

/-- Witness for C4's amended statement on the concrete module with one
function and one callback signature. -/
theorem exports_array_shape_witness :
    (exportsArray [0] [7]).length =
      ([0] : List Nat).length + ([7] : List Nat).length + 1 ∧
    HostExport.callbackEntry 7 ∈ exportsArray [0] [7] :=
  ⟨(exports_array_shape [0] [7]).1,
   (exports_array_shape [0] [7]).2.2.1 7 (by simp)⟩

/-- Claim C5: for `void func(int arg, ...)` with `uniform_va_type = char`,
the internal guest packer returns void and takes exactly three parameters
`int`, `unsigned long`, `char*` in that order — the variadic count slot
precedes the array pointer slot. -/
theorem variadic_internal_packer_signature :
    variadicPackerParams [CType.intT] CType.charT =
      [CType.intT, CType.ulongT, CType.ptrT CType.charT] ∧
    (variadicPackerParams [CType.intT] CType.charT).length = 3 ∧
    variadicPackerReturn CType.voidT = CType.voidT :=
  ⟨rfl, rfl, rfl⟩

/-- Claim C6: the trampoline body `CallGuestPtr` reads the `GuestcallInfo`
from the hidden register (`r11` on x86-64, `x11` on AArch64), packs the
native arguments into the stack record, invokes
`CallCallback(GuestUnpacker, GuestTarget, &packed_args)` exactly once, and
returns `packed_args.rv` if and only if the result type is non-void. -/
theorem callback_unpack_call_guest_ptr (gc : GuestcallInfo)
    (args : List Nat) (resultIsVoid : Bool) :
    hiddenContextRegister HostArch.x86_64 = "r11" ∧
    hiddenContextRegister HostArch.aarch64 = "x11" ∧
    (CallGuestPtr gc args resultIsVoid).1 =
      [TrampolineEvent.callCallbackInvoked gc.GuestUnpacker
        gc.GuestTarget args] ∧
    (CallGuestPtr gc args resultIsVoid).2 =
      (if resultIsVoid then none
       else some (gc.CallCallback gc.GuestUnpacker gc.GuestTarget args)) :=
  ⟨rfl, rfl, rfl, rfl⟩

/-- Claim C7: `guest_layout<T*>` is a single unsigned field of the guest
pointer width — 32 bits under IS_32BIT_THUNK, 64 bits otherwise — and both
the pointer assignment operator and the `to_guest` pointer conversion
store a value below `2 ^ width`, preserving the invariant. -/
theorem guest_ptr_layout_width_and_invariant :
    guestPtrWidth true = 32 ∧ guestPtrWidth false = 64 ∧
    (∀ is32 addr, ptrInvariant is32 (guestPtrAssign is32 addr)) ∧
    (∀ is32 h, ptrInvariant is32 (to_guest_ptr is32 h)) := by
  refine ⟨rfl, rfl, ?_, ?_⟩ <;>
    · intro is32 x
      exact Nat.mod_lt _ (by positivity)

/-- Claim C8 counterexample: with the weak primitive unresolved (null, as
when the thunk library is loaded without the emulator runtime), the
runtime helpers still perform the call — they call through the null weak
symbol instead of checking it first, contradicting the claim. -/
theorem trampoline_helpers_null_counterexample :
    MakeHostTrampolineForGuestFunctionAt none 0 0 0 =
      WeakCallResult.nullDeref ∧
    FinalizeHostTrampolineForGuestFunction none 0 0 =
      WeakCallResult.nullDeref :=
  ⟨rfl, rfl⟩

/-- Claim C8 (amended): the runtime helpers
`MakeHostTrampolineForGuestFunctionAt` and
`FinalizeHostTrampolineForGuestFunction` invoke the weakly-linked
primitives unconditionally, with no null check: when the primitive is
resolved they forward to it, and when it is unresolved the call goes
through the null symbol. -/
theorem trampoline_helpers_call_unconditionally
    (hostPacker guestTarget guestUnpacker trampoline : Nat) :
    MakeHostTrampolineForGuestFunctionAt none hostPacker guestTarget
      guestUnpacker = WeakCallResult.nullDeref ∧
    (∀ f, MakeHostTrampolineForGuestFunctionAt (some f) hostPacker
      guestTarget guestUnpacker =
        WeakCallResult.ok (f hostPacker guestTarget guestUnpacker)) ∧
    FinalizeHostTrampolineForGuestFunction none trampoline hostPacker =
      WeakCallResult.nullDeref ∧
    (∀ f, FinalizeHostTrampolineForGuestFunction (some f) trampoline
      hostPacker = WeakCallResult.ok (f trampoline hostPacker)) :=
  ⟨rfl, fun _ => rfl, rfl, fun _ => rfl⟩

/-- Claim C9: the guest-to-host pointer conversion zero-extends and the
host-to-guest conversion truncates back, so the round trip is the identity
on guest pointer values; and `to_guest` on a host address stores that
address reduced modulo `2 ^ width` with no range check, silently
discarding high bits on a 32-bit guest. -/
theorem guest_host_ptr_roundtrip (is32 : Bool) (g : GuestLayoutPtr)
    (hg : ptrInvariant is32 g) :
    to_guest_ptr is32 (host_layout_ptr_from_guest g) = g ∧
    (∀ p : Nat,
      (to_guest_ptr is32 ⟨p⟩).data = p % 2 ^ guestPtrWidth is32) := by
  constructor
  · cases g with
    | mk d =>
      unfold to_guest_ptr host_layout_ptr_from_guest
      unfold ptrInvariant at hg
      simp only [GuestLayoutPtr.mk.injEq]
      exact Nat.mod_eq_of_lt hg
  · intro p
    rfl

/-- Witness for C9 at a concrete 32-bit guest pointer value 5. -/
theorem guest_host_ptr_roundtrip_witness :
    ptrInvariant true ⟨5⟩ ∧
    (to_guest_ptr true (host_layout_ptr_from_guest ⟨5⟩) = ⟨5⟩ ∧
     ∀ p : Nat,
       (to_guest_ptr true ⟨p⟩).data = p % 2 ^ guestPtrWidth true) := by
  have hg : ptrInvariant true ⟨5⟩ := by
    unfold ptrInvariant guestPtrWidth
    norm_num
  exact ⟨hg, guest_host_ptr_roundtrip true ⟨5⟩ hg⟩

/-- Claim C10: constructing `host_layout<T>` from `guest_layout<T>` for a
non-enum scalar is defined exactly when host and guest representations
have equal size (the static_assert), and whenever the construction is
defined — including the enum constructor — the stored value is exactly the
guest value: the conversion never alters the stored bit value. -/
theorem host_layout_scalar_value_preserving (t : ScalarTy) (d : Nat) :
    (t.isEnum = false →
      ((host_layout_scalar t d).isSome ↔ t.hostSize = t.guestSize)) ∧
    (∀ v, host_layout_scalar t d = some v → v = d) := by
  constructor
  · intro hEnum
    unfold host_layout_scalar
    rw [hEnum]
    by_cases h : t.hostSize = t.guestSize <;> simp [h]
  · intro v hv
    unfold host_layout_scalar at hv
    split_ifs at hv <;> simp_all

/-- Witness for C10 at a concrete 4-byte non-enum scalar of value 7: the
construction is defined and preserves the value. -/
theorem host_layout_scalar_value_preserving_witness :
    (host_layout_scalar ⟨4, 4, false⟩ 7).isSome ∧ (7 : Nat) = 7 :=
  ⟨((host_layout_scalar_value_preserving ⟨4, 4, false⟩ 7).1 rfl).mpr rfl,
   (host_layout_scalar_value_preserving ⟨4, 4, false⟩ 7).2 7 rfl⟩

end FexThunks
